import Mathlib

/-!
Verification of the response-parsing / record-building core of
`src/backend/server.py` (pharma market-research backend).

Python strings are embedded as `List Char`; Python dicts read back from the
document store as association lists over a JSON value type `J`; fallible
Python code runs in `Except Exc`.  The external collaborators (LLM client,
Mongo driver, plotly/reportlab/openpyxl renderers) are modelled as oracle
parameters or as declarative output structures, exactly as the spec scopes
them out; everything else is translated from the source.
-/

set_option maxRecDepth 8192
set_option maxHeartbeats 1000000

abbrev Str := List Char

/-- Embed a Lean string literal as a Python string value. -/
def lit (s : String) : Str := s.toList

/-! ## Python string primitives used by `server.py` -/

/-- Characters removed by Python `str.strip()` with no argument. -/
def isPySpace (c : Char) : Bool :=
  c = ' ' || c = '\t' || c = '\n' || c = '\r' || c = '\x0b' || c = '\x0c'

/-- Python `s.strip()`. -/
def pyStrip (s : Str) : Str :=
  ((s.dropWhile isPySpace).reverse.dropWhile isPySpace).reverse

/-- Python `s.upper()` (the source only feeds it ASCII keywords). -/
def pyUpper (s : Str) : Str := s.map Char.toUpper

/-- Python `sub in s` (substring containment). -/
def occurs (sub : Str) : Str → Bool
  | [] => sub.isEmpty
  | x :: xs => sub.isPrefixOf (x :: xs) || occurs sub xs

/-- Worker for `pySplitSep`: Python `str.split(sep)` with non-empty `sep`,
fuelled by the input length (every step consumes at least one character, so
the zero-fuel case is unreachable from `pySplitSep`). -/
def splitSepAux (c0 : Char) (ctl : Str) : Nat → Str → Str → List Str
  | _, [], acc => [acc.reverse]
  | 0, l, acc => [acc.reverse ++ l]
  | fuel + 1, x :: xs, acc =>
    if (c0 :: ctl).isPrefixOf (x :: xs) then
      acc.reverse :: splitSepAux c0 ctl fuel (xs.drop ctl.length) []
    else
      splitSepAux c0 ctl fuel xs (x :: acc)

/-- Python `s.split(sep)` for non-empty `sep` (the source always passes one). -/
def pySplitSep (s : Str) (sep : Str) : List Str :=
  match sep with
  | [] => [s]
  | c :: cs => splitSepAux c cs s.length s []

/-- Worker for `pyReplace`, fuelled by the input length. -/
def pyReplaceAux (old new : Str) : Nat → Str → Str
  | 0, l => l
  | _ + 1, [] => []
  | fuel + 1, x :: xs =>
    if old.isPrefixOf (x :: xs) then
      new ++ pyReplaceAux old new fuel ((x :: xs).drop old.length)
    else
      x :: pyReplaceAux old new fuel xs

/-- Python `s.replace(old, new)` for non-empty `old` (all the source uses). -/
def pyReplace (s old new : Str) : Str := pyReplaceAux old new s.length s

/-- Index of the first occurrence of a character, if any. -/
def firstIdx (c : Char) : Str → Option Nat
  | [] => none
  | x :: xs => if x = c then some 0 else (firstIdx c xs).map (· + 1)

/-- Python `s.find(c)` for a single character: index or `-1`. -/
def pyFind (s : Str) (c : Char) : Int :=
  match firstIdx c s with
  | some i => (i : Int)
  | none => -1

/-- Python `s.rfind(c)` for a single character: last index or `-1`. -/
def pyRfind (s : Str) (c : Char) : Int :=
  match firstIdx c s.reverse with
  | some i => (s.length : Int) - 1 - (i : Int)
  | none => -1

/-- Normalize one Python slice bound against a length (negative wraps, clamps). -/
def pySliceIdx (len : Nat) (i : Int) : Nat :=
  if i < 0 then (i + len).toNat else min i.toNat len

/-- Python `s[a:b]` with integer bounds. -/
def pySlice (s : Str) (a b : Int) : Str :=
  (s.take (pySliceIdx s.length b)).drop (pySliceIdx s.length a)

/-- Python `s.title()` on ASCII: uppercase a letter after a non-letter. -/
def pyTitleAux : Bool → Str → Str
  | _, [] => []
  | prevAlpha, x :: xs =>
    (if x.isAlpha then (if prevAlpha then x.toLower else x.toUpper) else x) ::
      pyTitleAux x.isAlpha xs

/-- Python `s.title()` (ASCII fragment, all the source feeds it). -/
def pyTitle (s : Str) : Str := pyTitleAux false s

/-- Value of a string of decimal digits, as `int()` computes it. -/
def digitsToNat (ds : Str) : Nat := ds.foldl (fun a c => a * 10 + (c.toNat - 48)) 0

/-- Python `l[-n:]`. -/
def lastN {α : Type} (n : Nat) (l : List α) : List α := l.drop (l.length - n)

/-- Decimal digits of a natural number. -/
def natStr (n : Nat) : Str := Nat.toDigits 10 n

/-- Decimal rendering of an integer. -/
def intStr (n : Int) : Str := if n < 0 then '-' :: natStr n.natAbs else natStr n.natAbs

/-! ## JSON values and a strict parser modelling `json.loads`

`json.loads` is an external library routine; it is embedded here as a strict
recursive-descent parser over the JSON grammar (objects, arrays, strings with
escapes, numbers with fraction/exponent, literals), requiring the whole input
to be consumed modulo JSON whitespace.  A number is kept unevaluated as a
mantissa/decimal-exponent pair, so decoded values compare structurally. -/

inductive J where
  | null
  | bool (b : Bool)
  | num (mantissa : Int) (exp10 : Int)
  | str (s : Str)
  | arr (elems : List J)
  | obj (fields : List (Str × J))

/-- JSON whitespace skip (space, tab, newline, carriage return). -/
def skipWs (s : Str) : Str :=
  s.dropWhile (fun c => c = ' ' || c = '\t' || c = '\n' || c = '\r')

/-- Hexadecimal digit value. -/
def hexVal (c : Char) : Option Nat :=
  if c.isDigit then some (c.toNat - 48)
  else if 'a' ≤ c ∧ c ≤ 'f' then some (c.toNat - 87)
  else if 'A' ≤ c ∧ c ≤ 'F' then some (c.toNat - 55)
  else none

/-- Split a leading run of decimal digits off a string. -/
def spanDigits (s : Str) : Str × Str := (s.takeWhile Char.isDigit, s.dropWhile Char.isDigit)

/-- Parse a signed decimal exponent body after `e`/`E`. -/
def parseExpSigned (r : Str) : Option (Int × Str) :=
  let (sgn, r1) : Int × Str :=
    match r with
    | '+' :: t => (1, t)
    | '-' :: t => (-1, t)
    | _ => (1, r)
  let (ds, r2) := spanDigits r1
  if ds.isEmpty then none else some (sgn * (digitsToNat ds : Int), r2)

/-- Parse an optional exponent part; absent means exponent `0`. -/
def parseExpPart (s : Str) : Option (Int × Str) :=
  match s with
  | 'e' :: r => parseExpSigned r
  | 'E' :: r => parseExpSigned r
  | _ => some (0, s)

/-- Parse a JSON number (no leading zeros, optional fraction and exponent). -/
def parseNumber (s : Str) : Option ((Int × Int) × Str) :=
  let (neg, s1) : Bool × Str :=
    match s with
    | '-' :: r => (true, r)
    | _ => (false, s)
  let (ip, s2) := spanDigits s1
  if ip.isEmpty then none
  else if 1 < ip.length && ip.headD ' ' = '0' then none
  else
    match (match s2 with
           | '.' :: r =>
             let (ds, r2) := spanDigits r
             if ds.isEmpty then none else some (ds, r2)
           | _ => some (([] : Str), s2)) with
    | none => none
    | some (fd, s3) =>
      match parseExpPart s3 with
      | none => none
      | some (e, s4) =>
        let m : Int := (digitsToNat (ip ++ fd) : Int)
        some (((if neg then -m else m), e - (fd.length : Int)), s4)

/-- Prepend a character to the string being accumulated by `parseStringBody`. -/
def consOpt (c : Char) (o : Option (Str × Str)) : Option (Str × Str) :=
  o.map (fun p => (c :: p.1, p.2))

mutual

/-- Parse one JSON value, returning it with the unconsumed remainder. -/
def parseValue : Nat → Str → Option (J × Str)
  | 0, _ => none
  | fuel + 1, s0 =>
    match skipWs s0 with
    | [] => none
    | '{' :: r =>
      (match skipWs r with
       | '}' :: r2 => some (J.obj [], r2)
       | _ =>
         match parseMembers fuel r with
         | some (fs, r2) => some (J.obj fs, r2)
         | none => none)
    | '[' :: r =>
      (match skipWs r with
       | ']' :: r2 => some (J.arr [], r2)
       | _ =>
         match parseElems fuel r with
         | some (es, r2) => some (J.arr es, r2)
         | none => none)
    | '"' :: r =>
      (match parseStringBody fuel r with
       | some (cs, r2) => some (J.str cs, r2)
       | none => none)
    | 't' :: r => if (lit ("rue")).isPrefixOf r then some (J.bool true, r.drop 3) else none
    | 'f' :: r => if (lit ("alse")).isPrefixOf r then some (J.bool false, r.drop 4) else none
    | 'n' :: r => if (lit ("ull")).isPrefixOf r then some (J.null, r.drop 3) else none
    | c :: r =>
      if c.isDigit || c = '-' then
        match parseNumber (c :: r) with
        | some ((m, e), r2) => some (J.num m e, r2)
        | none => none
      else none

/-- Parse the members of a JSON object after its `{`, consuming the `}`. -/
def parseMembers : Nat → Str → Option (List (Str × J) × Str)
  | 0, _ => none
  | fuel + 1, s0 =>
    match skipWs s0 with
    | '"' :: r =>
      (match parseStringBody fuel r with
       | some (k, r1) =>
         (match skipWs r1 with
          | ':' :: r2 =>
            (match parseValue fuel r2 with
             | some (v, r3) =>
               (match skipWs r3 with
                | ',' :: r4 =>
                  (match parseMembers fuel r4 with
                   | some (rest, r5) => some ((k, v) :: rest, r5)
                   | none => none)
                | '}' :: r4 => some ([(k, v)], r4)
                | _ => none)
             | none => none)
          | _ => none)
       | none => none)
    | _ => none

/-- Parse the elements of a JSON array after its `[`, consuming the `]`. -/
def parseElems : Nat → Str → Option (List J × Str)
  | 0, _ => none
  | fuel + 1, s0 =>
    match parseValue fuel s0 with
    | some (v, r1) =>
      (match skipWs r1 with
       | ',' :: r2 =>
         (match parseElems fuel r2 with
          | some (rest, r3) => some (v :: rest, r3)
          | none => none)
       | ']' :: r2 => some ([v], r2)
       | _ => none)
    | none => none

/-- Parse a JSON string body after its opening quote, consuming the close. -/
def parseStringBody : Nat → Str → Option (Str × Str)
  | 0, _ => none
  | _ + 1, [] => none
  | fuel + 1, c :: r =>
    if c = '"' then some ([], r)
    else if c = '\\' then
      match r with
      | '"' :: r2 => consOpt '"' (parseStringBody fuel r2)
      | '\\' :: r2 => consOpt '\\' (parseStringBody fuel r2)
      | '/' :: r2 => consOpt '/' (parseStringBody fuel r2)
      | 'b' :: r2 => consOpt '\x08' (parseStringBody fuel r2)
      | 'f' :: r2 => consOpt '\x0c' (parseStringBody fuel r2)
      | 'n' :: r2 => consOpt '\n' (parseStringBody fuel r2)
      | 'r' :: r2 => consOpt '\r' (parseStringBody fuel r2)
      | 't' :: r2 => consOpt '\t' (parseStringBody fuel r2)
      | 'u' :: h1 :: h2 :: h3 :: h4 :: r2 =>
        (match hexVal h1, hexVal h2, hexVal h3, hexVal h4 with
         | some a, some b, some c3, some d =>
           consOpt (Char.ofNat (((a * 16 + b) * 16 + c3) * 16 + d)) (parseStringBody fuel r2)
         | _, _, _, _ => none)
      | _ => none
    else if c.toNat < 32 then none
    else consOpt c (parseStringBody fuel r)

end

/-- Python `json.loads`: strict parse of the whole string (modulo whitespace). -/
def parseJson (s : Str) : Option J :=
  match parseValue (s.length + 1) s with
  | some (j, rest) => if (skipWs rest).isEmpty then some j else none
  | none => none

/-- Field lookup in a decoded JSON object (`None`-like on non-objects). -/
def jField (j : J) (k : Str) : Option J :=
  match j with
  | .obj fs => (fs.find? (fun p => p.1 == k)).map (fun p => p.2)
  | _ => none

/-- Python truthiness of a decoded JSON value. -/
def jTruthy : J → Bool
  | .null => false
  | .bool b => b
  | .num m _ => !(m == 0)
  | .str s => !s.isEmpty
  | .arr l => !l.isEmpty
  | .obj l => !l.isEmpty

/-! ## Exceptions and the competitive-analysis heuristic parser

`generate_competitive_analysis` (server.py lines 247-401): line
classification into sections, in-section competitor extraction, the
secondary known-company pass and the error-path record. -/

inductive Exc where
  | http (statusCode : Nat) (detail : Str)
  | valueError (msg : Str)
  | keyError (key : Str)
  | typeError (msg : Str)
  | attributeError (msg : Str)
  | other (msg : Str)
deriving DecidableEq

/-- Python `str(e)` for the exception values the handlers stringify;
`str` of a starlette `HTTPException` is `"<status>: <detail>"`. -/
def excStr : Exc → Str
  | .http c d => natStr c ++ lit (": ") ++ d
  | .valueError m => m
  | .keyError k => k
  | .typeError m => m
  | .attributeError m => m
  | .other m => m

structure Competitor where
  name : Str
  products : Str
  market_share : Nat
  strengths : Str
  weaknesses : Option Str
deriving DecidableEq

structure CompState where
  current_section : Str
  current_content : List Str
  competitors : List Competitor
  market_dynamics : Str
  pipeline : Str
  positioning : Str
  catalysts : Str
deriving DecidableEq

def compInit : CompState := ⟨[], [], [], [], [], [], []⟩

/-- `any(keyword in line.upper() for keyword in kws)`. -/
def anyKeyword (up : Str) (kws : List Str) : Bool := kws.any (fun k => occurs k up)

/-- The markers tested by `any(char in line for char in ['-','•','1.','2.','3.'])`. -/
def bulletMarkers : List Str := [lit ("-"), lit ("•"), lit ("1."), lit ("2."), lit ("3.")]

/-- The prefixes stripped from a competitor name, in source order. -/
def numberPrefixes : List Str :=
  [lit ("1."), lit ("2."), lit ("3."), lit ("4."), lit ("5."), lit ("6."), lit ("7."),
   lit ("-"), lit ("•")]

/-- `company_part = company_part.replace(prefix, '').strip()` over all prefixes. -/
def cleanCompanyName (s : Str) : Str :=
  numberPrefixes.foldl (fun acc p => pyStrip (pyReplace acc p [])) s

/-- `line.split(':', 1)` when a colon is present, else `[line, ""]`. -/
def splitFirstColon : Str → Str × Str
  | [] => ([], [])
  | x :: xs =>
    if x = ':' then ([], xs)
    else
      let (a, b) := splitFirstColon xs
      (x :: a, b)

/-- `re.search(r'(\d+)%', details)`: digits of the first digit-run that is
immediately followed by a percent sign. -/
def shareDigits : Str → Str → Option Str
  | [], _ => none
  | x :: xs, run =>
    if x.isDigit then shareDigits xs (x :: run)
    else if x = '%' && !run.isEmpty then some run.reverse
    else shareDigits xs []

/-- Market share of a competitor line: `25` default, regex match overrides. -/
def extractShare (details : Str) : Nat :=
  if details.contains '%' then
    match shareDigits details [] with
    | some ds => digitsToNat ds
    | none => 25
  else 25

/-- The competitor dict appended by the line-classification pass. -/
def mkLineCompetitor (company details : Str) : Competitor :=
  { name := company.take 50
    products := if details.isEmpty then lit ("Market presence") else details.take 100
    market_share := extractShare details
    strengths := if details.isEmpty then lit ("Established player") else details.take 100
    weaknesses := some (lit ("See analysis for details")) }

/-- The per-iteration trailing block (lines 348-355): store the last 10
accumulated lines into the current non-competitor section. -/
def collectSections (st : CompState) : CompState :=
  if st.current_section = lit ("market_dynamics") ∧ st.current_content ≠ [] then
    { st with market_dynamics := List.intercalate (lit ("\n")) (lastN 10 st.current_content) }
  else if st.current_section = lit ("pipeline") ∧ st.current_content ≠ [] then
    { st with pipeline := List.intercalate (lit ("\n")) (lastN 10 st.current_content) }
  else if st.current_section = lit ("positioning") ∧ st.current_content ≠ [] then
    { st with positioning := List.intercalate (lit ("\n")) (lastN 10 st.current_content) }
  else if st.current_section = lit ("catalysts") ∧ st.current_content ≠ [] then
    { st with catalysts := List.intercalate (lit ("\n")) (lastN 10 st.current_content) }
  else st

/-- One iteration of the `for line in lines` loop (lines 295-355). -/
def processLine (st : CompState) (rawLine : Str) : CompState :=
  let line := pyStrip rawLine
  if line.isEmpty then st
  else
    let up := pyUpper line
    let st1 :=
      if anyKeyword up [lit ("COMPETITOR"), lit ("MAJOR"), lit ("KEY PLAYER")] then
        { st with current_section := lit ("competitors"), current_content := [] }
      else if anyKeyword up [lit ("MARKET DYNAMIC"), lit ("MARKET TREND")] then
        { st with current_section := lit ("market_dynamics"), current_content := [] }
      else if anyKeyword up [lit ("PIPELINE"), lit ("DEVELOPMENT")] then
        { st with current_section := lit ("pipeline"), current_content := [] }
      else if anyKeyword up [lit ("POSITIONING"), lit ("DIFFERENTIAT")] then
        { st with current_section := lit ("positioning"), current_content := [] }
      else if anyKeyword up [lit ("CATALYST"), lit ("UPCOMING"), lit ("EVENTS")] then
        { st with current_section := lit ("catalysts"), current_content := [] }
      else
        let st' := { st with current_content := st.current_content ++ [line] }
        if st'.current_section = lit ("competitors") then
          if bulletMarkers.any (fun m => occurs m line) then
            let (c0, d0) := splitFirstColon line
            let company := cleanCompanyName (pyStrip c0)
            let details := pyStrip d0
            if 2 < company.length then
              { st' with competitors := st'.competitors ++ [mkLineCompetitor company details] }
            else st'
          else st'
        else st'
    collectSections st1

/-- State after the line-classification pass over `response.split('\n')`. -/
def linePassState (resp : Str) : CompState :=
  (pySplitSep resp (lit ("\n"))).foldl processLine compInit

/-- The fixed company-name set of the secondary pass (line 362). -/
def knownCompanyNames : List Str :=
  [lit ("NOVARTIS"), lit ("PFIZER"), lit ("ROCHE"), lit ("BRISTOL"), lit ("MERCK"),
   lit ("JOHNSON"), lit ("ABBVIE"), lit ("GILEAD"), lit ("BIOGEN"), lit ("AMGEN")]

/-- The placeholder entry synthesized by the secondary pass (lines 363-369). -/
def mkKnownCompetitor (line : Str) : Competitor :=
  { name := (pyStrip line).take 30
    products := lit ("Multiple products in portfolio")
    market_share := 15
    strengths := lit ("Established pharmaceutical company")
    weaknesses := some (lit ("High competition")) }

/-- One iteration of the secondary scan: append a placeholder entry when the
line mentions a known company name (lines 361-369). -/
def secondaryStep (acc : List Competitor) (line : Str) : List Competitor :=
  if knownCompanyNames.any (fun c => occurs c (pyUpper line)) then
    acc ++ [mkKnownCompetitor line]
  else acc

/-- The secondary known-company scan (lines 360-371): append on a match,
then break as soon as 5 competitors have been collected. -/
def secondaryPass : List Str → List Competitor → List Competitor
  | [], acc => acc
  | line :: rest, acc =>
    if 5 ≤ (secondaryStep acc line).length then secondaryStep acc line
    else secondaryPass rest (secondaryStep acc line)

structure CompResult where
  competitors : List Competitor
  market_dynamics : Str
  pipeline : Str
  positioning : Str
  catalysts : Str
  full_analysis : Str
deriving DecidableEq

/-- The record returned from the `except` branch (lines 390-401). -/
def compErrorResult (e : Exc) : CompResult :=
  { competitors := [{ name := lit ("Analysis Error"), products := (excStr e).take 100,
                      market_share := 0, strengths := lit ("Please try again"),
                      weaknesses := none }]
    market_dynamics := lit ("Error generating analysis: ") ++ excStr e
    pipeline := lit ("Please regenerate analysis")
    positioning := lit ("Error in analysis generation")
    catalysts := lit ("Please try again with valid API key")
    full_analysis := lit ("Error: ") ++ excStr e }

/-- `generate_competitive_analysis` given the outcome of the model call
(`.error` models the call itself raising, handled by the outer `except`). -/
def generate_competitive_analysis (llmOutcome : Except Exc Str) : CompResult :=
  match llmOutcome with
  | .error e => compErrorResult e
  | .ok resp =>
    let st := linePassState resp
    let comps :=
      if st.competitors.isEmpty then secondaryPass (pySplitSep resp (lit ("\n"))) []
      else st.competitors
    let md :=
      if st.market_dynamics.isEmpty then resp.take 500 ++ lit ("...") else st.market_dynamics
    let pl :=
      if st.pipeline.isEmpty then lit ("Pipeline analysis included in full competitive analysis")
      else st.pipeline
    let ct :=
      if st.catalysts.isEmpty then
        lit ("Key market catalysts and events detailed in comprehensive analysis")
      else st.catalysts
    let ps :=
      if st.positioning.isEmpty then
        lit ("Competitive positioning varies by therapeutic focus and market presence")
      else st.positioning
    { competitors := comps.take 7, market_dynamics := md, pipeline := pl,
      positioning := ps, catalysts := ct, full_analysis := resp }

/-! ## Scenario models, risk assessment, regulatory intelligence -/

/-- `base_projections` of the scenario fallback (line 482). -/
def base_projections : List Nat := [100, 250, 500, 750, 900, 800]

/-- `int(p * [0.6, 1.0, 1.8][min(i, 2)])` — at every operand the source feeds
it (`base_projections` and `900`), the float products are exact, so the value
is modelled by exact rational arithmetic truncated toward zero. -/
def scaleInt (i : Nat) (p : Nat) : Nat :=
  match min i 2 with
  | 0 => p * 6 / 10
  | 1 => p
  | _ => p * 18 / 10

/-- One scenario record of the fallback (lines 486-493). -/
def scenarioRecord (i : Nat) (scenario : Str) (resp : Str) : J :=
  J.obj
    [(lit ("assumptions"), J.arr [J.str (pyTitle scenario ++ lit (" market conditions"))]),
     (lit ("projections"), J.arr (base_projections.map (fun p => J.num (scaleInt i p) 0))),
     (lit ("peak_sales"), J.num (scaleInt i 900) 0),
     (lit ("market_share_trajectory"),
      J.arr ([2, 5, 8, 12, 15, 13].map (fun n => J.num n 0))),
     (lit ("key_factors"), J.arr [J.str (pyTitle scenario ++ lit (" execution"))]),
     (lit ("full_analysis"), J.str resp)]

/-- `for i, scenario in enumerate(scenarios)` of the fallback loop. -/
def scenarioFallbackFields (resp : Str) : Nat → List Str → List (Str × J)
  | _, [] => []
  | i, s :: ss => (s, scenarioRecord i s resp) :: scenarioFallbackFields resp (i + 1) ss

/-- `generate_scenario_models` (lines 445-497) given the model-call outcome:
`{}` when the call raises, the decoded JSON on success, else the fallback. -/
def generate_scenario_models (scenarios : List Str) (llmOutcome : Except Exc Str) : J :=
  match llmOutcome with
  | .error _ => J.obj []
  | .ok resp =>
    match parseJson resp with
    | some j => j
    | none => J.obj (scenarioFallbackFields resp 0 scenarios)

/-- The risk fallback record (lines 432-440). -/
def riskFallback (resp : Str) : J :=
  J.obj
    [(lit ("clinical_risk"),
      J.obj [(lit ("level"), J.str (lit ("Medium"))),
             (lit ("factors"), J.arr [J.str (lit ("See analysis"))])]),
     (lit ("regulatory_risk"),
      J.obj [(lit ("level"), J.str (lit ("Medium"))),
             (lit ("factors"), J.arr [J.str (lit ("See analysis"))])]),
     (lit ("commercial_risk"),
      J.obj [(lit ("level"), J.str (lit ("Medium"))),
             (lit ("factors"), J.arr [J.str (lit ("See analysis"))])]),
     (lit ("operational_risk"),
      J.obj [(lit ("level"), J.str (lit ("Low"))),
             (lit ("factors"), J.arr [J.str (lit ("See analysis"))])]),
     (lit ("market_risk"),
      J.obj [(lit ("level"), J.str (lit ("Medium"))),
             (lit ("factors"), J.arr [J.str (lit ("See analysis"))])]),
     (lit ("overall_score"), J.num 5 0),
     (lit ("full_assessment"), J.str resp)]

/-- `generate_risk_assessment` (lines 403-443) given the model-call outcome. -/
def generate_risk_assessment (llmOutcome : Except Exc Str) : J :=
  match llmOutcome with
  | .error _ => J.obj []
  | .ok resp =>
    match parseJson resp with
    | some j => j
    | none => riskFallback resp

/-- The regulatory fallback record (lines 236-242). -/
def regulatoryFallback (resp : Str) : J :=
  J.obj
    [(lit ("pathways"), J.str (lit ("See full analysis"))),
     (lit ("recent_activity"), J.str (lit ("See full analysis"))),
     (lit ("trends"), J.str (lit ("See full analysis"))),
     (lit ("timelines"), J.str (lit ("See full analysis"))),
     (lit ("market_access"), J.str resp)]

/-- `search_regulatory_intelligence` (lines 207-245) given the call outcome. -/
def search_regulatory_intelligence (llmOutcome : Except Exc Str) : J :=
  match llmOutcome with
  | .error _ => J.obj []
  | .ok resp =>
    match parseJson resp with
    | some j => j
    | none => regulatoryFallback resp

/-! ## Therapy-area delimited-section parsing (lines 691-709) -/

structure TaSections where
  disease_summary : Str
  staging : Str
  biomarkers : Str
  treatment_algorithm : Str
  patient_journey : Str
deriving DecidableEq

def emptySections : TaSections := ⟨[], [], [], [], []⟩

/-- The body of `for section in sections[1:]`. -/
def classifySection (acc : TaSections) (sec : Str) : TaSections :=
  if (lit ("DISEASE SUMMARY")).isPrefixOf sec then
    { acc with disease_summary := pyStrip (pyReplace sec (lit ("DISEASE SUMMARY\n")) []) }
  else if (lit ("STAGING")).isPrefixOf sec then
    { acc with staging := pyStrip (pyReplace sec (lit ("STAGING\n")) []) }
  else if (lit ("BIOMARKERS")).isPrefixOf sec then
    { acc with biomarkers := pyStrip (pyReplace sec (lit ("BIOMARKERS\n")) []) }
  else if (lit ("TREATMENT ALGORITHM")).isPrefixOf sec then
    { acc with treatment_algorithm := pyStrip (pyReplace sec (lit ("TREATMENT ALGORITHM\n")) []) }
  else if (lit ("PATIENT JOURNEY")).isPrefixOf sec then
    { acc with patient_journey := pyStrip (pyReplace sec (lit ("PATIENT JOURNEY\n")) []) }
  else acc

/-- `response.split("## ")` then the section loop of `analyze_therapy_area`. -/
def parseTherapySections (resp : Str) : TaSections :=
  ((pySplitSep resp (lit ("## "))).drop 1).foldl classifySection emptySections

/-! ## Chart builders (`create_funnel_chart` and friends, lines 116-183)

The plotly figure/JSON-encoder calls are external collaborators; the builders
are embedded as declarative chart descriptions, with the fallible Python steps
(subscripting, `float()` conversion) kept explicit in `Except Exc`. -/

/-- `analysis['k']` / `d['k']` on a dict: missing key raises `KeyError`. -/
def dictGetItem (d : List (Str × J)) (k : Str) : Except Exc J :=
  match d.find? (fun p => p.1 == k) with
  | some p => .ok p.2
  | none => .error (.keyError k)

/-- `j['k']`: subscripting a decoded value by a string key. -/
def jGetItem (j : J) (k : Str) : Except Exc J :=
  match j with
  | .obj fs => dictGetItem fs k
  | _ => .error (.typeError (lit ("value is not subscriptable by a string key")))

/-- `j.get(k, dflt)`: only dicts have `.get`. -/
def jGetD (j : J) (k : Str) (dflt : J) : Except Exc J :=
  match j with
  | .obj fs => .ok (((fs.find? (fun p => p.1 == k)).map (fun p => p.2)).getD dflt)
  | _ => .error (.attributeError (lit ("object has no attribute get")))

/-- A value used where Python needs a `str` (e.g. before `.replace`). -/
def asStr : J → Except Exc Str
  | .str s => .ok s
  | _ => .error (.typeError (lit ("expected str")))

/-- Python `float(s)`: strip, optional sign, decimal digits with optional
fraction and exponent; result kept as an exact mantissa/exponent pair.
`inf`/`nan` spellings are not modelled (the source never produces them). -/
def pyFloatParse (s0 : Str) : Option (Int × Int) :=
  let s := pyStrip s0
  let (neg, s1) : Bool × Str :=
    match s with
    | '-' :: r => (true, r)
    | '+' :: r => (false, r)
    | _ => (false, s)
  let (ip, s2) := spanDigits s1
  let (fd, s3) : Str × Str :=
    match s2 with
    | '.' :: r => spanDigits r
    | _ => ([], s2)
  if (ip ++ fd).isEmpty then none
  else
    match parseExpPart s3 with
    | none => none
    | some (e, s4) =>
      if s4.isEmpty then
        let m : Int := (digitsToNat (ip ++ fd) : Int)
        some ((if neg then -m else m), e - (fd.length : Int))
      else none

/-- `marker_color` palette of the funnel chart (line 125). -/
def funnelColors : List Str :=
  [lit ("deepskyblue"), lit ("lightsalmon"), lit ("tan"), lit ("teal"),
   lit ("silver"), lit ("gold")]

structure FunnelChart where
  stages : List J
  values : List (Int × Int)
  colors : List Str

/-- `create_funnel_chart` (lines 116-134): stage labels, then each stage's
percentage string converted by `float(stage['percentage'].replace('%', ''))`. -/
def create_funnel_chart (funnel_stages : J) : Except Exc FunnelChart := do
  let stages ←
    match funnel_stages with
    | .arr l => Except.ok l
    | _ => Except.error (.typeError (lit ("funnel_stages is not iterable")))
  let names ← stages.mapM (fun st => jGetItem st (lit ("stage")))
  let percents ← stages.mapM (fun st => do
    let p ← jGetItem st (lit ("percentage"))
    let s ←
      match p with
      | J.str s => Except.ok s
      | _ => Except.error (.attributeError (lit ("percentage has no attribute replace")))
    let s2 := pyReplace s (lit ("%")) []
    match pyFloatParse s2 with
    | some v => Except.ok v
    | none => Except.error (.valueError (lit ("could not convert string to float: ") ++ s2)))
  Except.ok { stages := names, values := percents, colors := funnelColors.take stages.length }

structure PieChart where
  names : List J
  values : List J

/-- `create_market_analysis_chart` (lines 136-151): `None` when the data is
falsy or has no competitors key, else the top-10 pie of names and shares. -/
def create_market_analysis_chart (competitive_data : J) : Except Exc (Option PieChart) := do
  if !(jTruthy competitive_data) then
    Except.ok none
  else
    let hasKey ←
      match competitive_data with
      | .obj fs => Except.ok (fs.any (fun p => p.1 == lit ("competitors")))
      | .str s => Except.ok (occurs (lit ("competitors")) s)
      | .arr l =>
        Except.ok (l.any (fun e => match e with | J.str s => s == lit ("competitors") | _ => false))
      | _ => Except.error (.typeError (lit ("argument of type is not iterable")))
    if !hasKey then
      Except.ok none
    else do
      let compsVal ← jGetItem competitive_data (lit ("competitors"))
      let comps ←
        match compsVal with
        | J.arr l => Except.ok (l.take 10)
        | _ => Except.error (.typeError (lit ("unsubscriptable competitors value")))
      let names ← comps.mapM (fun c => jGetD c (lit ("name")) (J.str (lit ("Unknown"))))
      let shares ← comps.mapM (fun c => jGetD c (lit ("market_share")) (J.num 5 0))
      Except.ok (some { names := names, values := shares })

structure ScenarioSeries where
  scenario : Str
  points : List J
  color : Str

structure ScenarioChart where
  series : List ScenarioSeries

/-- The fixed per-scenario line colors (line 163), `gray` default. -/
def scenarioColor (s : Str) : Str :=
  if s = lit ("optimistic") then lit ("green")
  else if s = lit ("realistic") then lit ("blue")
  else if s = lit ("pessimistic") then lit ("red")
  else lit ("gray")

/-- `create_scenario_comparison_chart` (lines 153-183). -/
def create_scenario_comparison_chart (scenario_models : J) : Except Exc (Option ScenarioChart) := do
  if !(jTruthy scenario_models) then
    Except.ok none
  else do
    let entries ←
      match scenario_models with
      | .obj fs => Except.ok fs
      | _ => Except.error (.attributeError (lit ("object has no attribute keys")))
    let series ← entries.foldlM (fun acc kv => do
      let hasProj ←
        match kv.2 with
        | J.obj fs => Except.ok (fs.any (fun p => p.1 == lit ("projections")))
        | J.str s => Except.ok (occurs (lit ("projections")) s)
        | J.arr l =>
          Except.ok (l.any (fun e => match e with | J.str s => s == lit ("projections") | _ => false))
        | _ => Except.error (.typeError (lit ("argument of type is not iterable")))
      if hasProj then do
        let pv ← jGetItem kv.2 (lit ("projections"))
        let pts ←
          match pv with
          | J.arr l => Except.ok (l.take 6)
          | _ => Except.error (.typeError (lit ("unsubscriptable projections value")))
        Except.ok (acc ++ [{ scenario := kv.1, points := pts, color := scenarioColor kv.1 }])
      else Except.ok acc) ([] : List ScenarioSeries)
    Except.ok (some { series := series })

/-! ## The funnel-generation endpoint (`generate_patient_flow_funnel`,
lines 744-869)

The Mongo collections are lists of documents; the LLM calls are oracle
parameters; `uuid4` and `utcnow` are the `newId`/`createdAt` parameters.
The endpoint body runs inside `try`, and `except Exception` re-raises
every body exception as a 500 whose detail wraps `str(e)`. -/

abbrev Doc := List (Str × J)

/-- `d.get(k, dflt)` on a stored document. -/
def dictGetD (d : Doc) (k : Str) (dflt : J) : J :=
  ((d.find? (fun p => p.1 == k)).map (fun p => p.2)).getD dflt

/-- Does a stored document's `id` field equal the requested string id? -/
def docIdMatches (d : Doc) (i : Str) : Bool :=
  match d.find? (fun p => p.1 == lit ("id")) with
  | some p =>
    match p.2 with
    | J.str s => s == i
    | _ => false
  | none => false

/-- `collection.find_one({"id": i})`. -/
def findOneById (coll : List Doc) (i : Str) : Option Doc :=
  coll.find? (fun d => docIdMatches d i)

structure FunnelViz where
  funnel_chart : FunnelChart
  scenario_chart : Option ScenarioChart
  market_chart : Option (Option PieChart)

structure FunnelDoc where
  id : Str
  therapy_area : Str
  analysis_id : Str
  funnel_stages : List J
  total_addressable_population : Str
  forecasting_notes : Str
  scenario_models : J
  visualization_data : FunnelViz
  created_at : Str

structure Db where
  therapy_analyses : List Doc
  patient_flow_funnels : List FunnelDoc

/-- The `except` fallback of the funnel JSON parse (lines 827-834). -/
def fallbackFunnelResponse (resp : Str) : J :=
  J.obj
    [(lit ("funnel_stages"),
      J.arr
        [J.obj [(lit ("stage"), J.str (lit ("Total Population"))),
                (lit ("description"), J.str (lit ("Analysis generated"))),
                (lit ("percentage"), J.str (lit ("100%"))),
                (lit ("notes"), J.str (lit ("See full response")))],
         J.obj [(lit ("stage"), J.str (lit ("Target Population"))),
                (lit ("description"), J.str (lit ("Detailed analysis provided"))),
                (lit ("percentage"), J.str (lit ("Variable"))),
                (lit ("notes"), J.str (resp.take 200 ++ lit ("...")))]]),
     (lit ("total_addressable_population"), J.str (lit ("See full analysis response"))),
     (lit ("forecasting_notes"), J.str resp)]

/-- The embedded-JSON parsing step of funnel generation (lines 819-825):
slice from the first `{` to the last `}` and strictly decode. -/
def extractEmbeddedJson (resp : Str) : Option J :=
  let jsonStart := pyFind resp '{'
  let jsonEnd := pyRfind resp '}' + 1
  parseJson (pySlice resp jsonStart jsonEnd)

/-- The `try` body of `generate_patient_flow_funnel`: lookup, model call,
parse-or-fallback, scenario models, charts, pydantic construction, insert. -/
def funnelBody (db : Db) (analysis_id therapy_area : Str)
    (llmOutcome llmScenOutcome : Except Exc Str) (newId createdAt : Str) :
    Except Exc (FunnelDoc × Db) := do
  let analysis ←
    match findOneById db.therapy_analyses analysis_id with
    | none => Except.error (.http 404 (lit ("Analysis not found")))
    | some a => Except.ok a
  -- the prompt f-string subscripts these fields; a missing key raises KeyError
  let _ ← dictGetItem analysis (lit ("disease_summary"))
  let _ ← dictGetItem analysis (lit ("treatment_algorithm"))
  let _ ← dictGetItem analysis (lit ("patient_journey"))
  let response ← llmOutcome
  let parsed : J :=
    match extractEmbeddedJson response with
    | some j => j
    | none => fallbackFunnelResponse response
  let scenario_models :=
    generate_scenario_models [lit ("optimistic"), lit ("realistic"), lit ("pessimistic")]
      llmScenOutcome
  let stagesForChart ← jGetD parsed (lit ("funnel_stages")) (J.arr [])
  let funnelChart ← create_funnel_chart stagesForChart
  let scenarioChart ← create_scenario_comparison_chart scenario_models
  let compLand := dictGetD analysis (lit ("competitive_landscape")) J.null
  let marketChart ←
    if jTruthy compLand then do
      let mc ← create_market_analysis_chart compLand
      Except.ok (some mc)
    else Except.ok none
  let stages2 ← jGetD parsed (lit ("funnel_stages")) (J.arr [])
  let tapJ ← jGetD parsed (lit ("total_addressable_population")) (J.str [])
  let notesJ ← jGetD parsed (lit ("forecasting_notes")) (J.str [])
  -- pydantic validation of PatientFlowFunnel (str fields, List[dict] stages)
  let stageDocs ←
    match stages2 with
    | .arr l =>
      l.mapM (fun e =>
        match e with
        | J.obj fs => Except.ok (J.obj fs)
        | _ => Except.error (.other (lit ("validation error: funnel stage items must be dicts"))))
    | _ => Except.error (.other (lit ("validation error: funnel_stages must be a list")))
  let tap ← asStr tapJ
  let notes ← asStr notesJ
  let _ ←
    match scenario_models with
    | J.obj _ => Except.ok ()
    | _ => Except.error (.other (lit ("validation error: scenario_models must be a dict")))
  let funnelDoc : FunnelDoc :=
    { id := newId, therapy_area := therapy_area, analysis_id := analysis_id,
      funnel_stages := stageDocs, total_addressable_population := tap,
      forecasting_notes := notes, scenario_models := scenario_models,
      visualization_data :=
        { funnel_chart := funnelChart, scenario_chart := scenarioChart,
          market_chart := marketChart },
      created_at := createdAt }
  let db2 : Db := { db with patient_flow_funnels := db.patient_flow_funnels ++ [funnelDoc] }
  Except.ok (funnelDoc, db2)

/-- `generate_patient_flow_funnel`: the body under `try`, with the handler's
`except Exception` turning every body exception — the explicit 404 included —
into a 500 whose detail is `"Funnel generation failed: " + str(e)`. -/
def generate_patient_flow_funnel (db : Db) (analysis_id therapy_area : Str)
    (llmOutcome llmScenOutcome : Except Exc Str) (newId createdAt : Str) :
    Except Exc FunnelDoc × Db :=
  match funnelBody db analysis_id therapy_area llmOutcome llmScenOutcome newId createdAt with
  | .ok (doc, db2) => (.ok doc, db2)
  | .error e => (.error (.http 500 (lit ("Funnel generation failed: ") ++ excStr e)), db)

/-! ## Document exporters (`generate_pdf_report` lines 500-568,
`generate_excel_export` lines 570-631)

The reportlab/openpyxl renderers are external collaborators; the exporter
bodies are embedded as the story / cell-write sequence they assemble, with
Python's fallible steps (`analysis['therapy_area']`, `.get` on non-dicts,
`len()` on numbers, writing a dict into a cell) explicit in `Except Exc`.
The final base64 encoding of the rendered byte blob is out of scope; the
payload is the assembled document description.  Each exporter wraps its whole
body in `try`, logging and returning `None` on any exception. -/

inductive PdfElem where
  | para (text : Str) (style : String)
  | spacer (w h : Nat)

/-- Python `str()` of a decoded value as interpolated by the f-strings
(dict/list renderings abbreviated; no claim inspects them). -/
def jToStr : J → Str
  | .null => lit ("None")
  | .bool true => lit ("True")
  | .bool false => lit ("False")
  | .num m e => if e = 0 then intStr m else intStr m ++ lit ("e") ++ intStr e
  | .str s => s
  | .arr _ => lit ("[...]")
  | .obj _ => lit ("\x7b...\x7d")

/-- `len(content)` for the PDF truncation test. -/
def pyLen : J → Except Exc Nat
  | .str s => .ok s.length
  | .arr l => .ok l.length
  | .obj l => .ok l.length
  | _ => .error (.typeError (lit ("object has no len")))

/-- The `try` body of `generate_pdf_report`. -/
def pdfBody (analysis : Doc) : Except Exc (List PdfElem) := do
  let ta ← dictGetItem analysis (lit ("therapy_area"))
  let mut story : List PdfElem := []
  story := story ++ [PdfElem.para (lit ("Pharma Analysis Report: ") ++ jToStr ta) "CustomTitle"]
  story := story ++ [PdfElem.spacer 1 20]
  story := story ++ [PdfElem.para (lit ("Executive Summary")) "Heading2"]
  let summaryS ← asStr (dictGetD analysis (lit ("disease_summary")) (J.str []))
  story := story ++ [PdfElem.para (summaryS.take 500 ++ lit ("...")) "Normal"]
  story := story ++ [PdfElem.spacer 1 20]
  for sec in [(lit ("Disease Overview"), lit ("disease_summary")),
              (lit ("Staging Information"), lit ("staging")),
              (lit ("Biomarkers"), lit ("biomarkers")),
              (lit ("Treatment Algorithm"), lit ("treatment_algorithm")),
              (lit ("Patient Journey"), lit ("patient_journey"))] do
    let content := dictGetD analysis sec.2 (J.str [])
    if jTruthy content then
      let n ← pyLen content
      let s ← asStr content
      let truncated := if 1000 < n then s.take 1000 ++ lit ("...") else s
      story := story ++ [PdfElem.para sec.1 "Heading3", PdfElem.para truncated "Normal",
                         PdfElem.spacer 1 12]
  let comp := dictGetD analysis (lit ("competitive_landscape")) J.null
  if jTruthy comp then
    story := story ++ [PdfElem.para (lit ("Competitive Landscape")) "Heading2"]
    match comp with
    | J.obj fs =>
      if fs.any (fun p => p.1 == lit ("competitors")) then
        let compsVal ← dictGetItem fs (lit ("competitors"))
        let comps ←
          match compsVal with
          | J.arr l => Except.ok (l.take 5)
          | _ => Except.error (.typeError (lit ("unsubscriptable competitors value")))
        for c in comps do
          let nm ← jGetD c (lit ("name")) (J.str (lit ("Unknown")))
          let strn ← jGetD c (lit ("strengths")) (J.str (lit ("Market presence")))
          story := story ++
            [PdfElem.para (lit ("• ") ++ jToStr nm ++ lit (": ") ++ jToStr strn) "Normal"]
      else pure ()
    | _ => pure ()
    story := story ++ [PdfElem.spacer 1 20]
  let risk := dictGetD analysis (lit ("risk_assessment")) J.null
  if jTruthy risk then
    story := story ++ [PdfElem.para (lit ("Risk Assessment")) "Heading2"]
    match risk with
    | J.obj fs =>
      for kv in fs do
        match kv.2 with
        | J.obj rf =>
          if rf.any (fun p => p.1 == lit ("level")) then
            let lvl ← dictGetItem rf (lit ("level"))
            story := story ++
              [PdfElem.para (lit ("• ") ++ pyTitle (pyReplace kv.1 (lit ("_")) (lit (" "))) ++
                 lit (": ") ++ jToStr lvl) "Normal"]
          else pure ()
        | _ => pure ()
    | _ => pure ()
    story := story ++ [PdfElem.spacer 1 20]
  return story

/-- `generate_pdf_report`: the whole body under `try`; any internal exception
is logged and `None` is returned (never re-raised). -/
def generate_pdf_report (analysis : Doc) (_funnel : Option Doc) : Except Exc (Option (List PdfElem)) :=
  match pdfBody analysis with
  | .ok story => .ok (some story)
  | .error _ => .ok none

/-- Writing a value into a worksheet cell; openpyxl rejects dicts and lists. -/
def writeCell (v : J) : Except Exc J :=
  match v with
  | .obj _ => .error (.valueError (lit ("cannot convert dict to excel cell")))
  | .arr _ => .error (.valueError (lit ("cannot convert list to excel cell")))
  | x => .ok x

/-- `v[:n]` for the Excel summary truncations. -/
def jSliceVal (v : J) (n : Nat) : Except Exc J :=
  match v with
  | .str s => .ok (J.str (s.take n))
  | .arr l => .ok (J.arr (l.take n))
  | _ => .error (.typeError (lit ("unsliceable value")))

/-- `chr(66 + i)`: the year columns B..G. -/
def colLetter (i : Nat) : Str := [Char.ofNat (66 + i)]

/-- The `try` body of `generate_excel_export`, as the sequence of
(sheet, cell, value) writes it performs. -/
def excelBody (analysis : Doc) (funnel : Option Doc) : Except Exc (List (Str × Str × J)) := do
  let mut cells : List (Str × Str × J) := []
  let ta ← dictGetItem analysis (lit ("therapy_area"))
  cells := cells ++
    [(lit ("Analysis Summary"), lit ("A1"), J.str (lit ("Therapy Area Analysis: ") ++ jToStr ta))]
  let mut row := 3
  for sec in [(lit ("Disease Summary"), lit ("disease_summary"), 500),
              (lit ("Key Biomarkers"), lit ("biomarkers"), 300),
              (lit ("Treatment Algorithm"), lit ("treatment_algorithm"), 300)] do
    let sliced ← jSliceVal (dictGetD analysis sec.2.1 (J.str [])) sec.2.2
    let cv ← writeCell sliced
    cells := cells ++
      [(lit ("Analysis Summary"), lit ("A") ++ natStr row, J.str sec.1),
       (lit ("Analysis Summary"), lit ("B") ++ natStr row, cv)]
    row := row + 2
  match funnel with
  | some f =>
    if !f.isEmpty && f.any (fun p => p.1 == lit ("funnel_stages")) then
      cells := cells ++
        [(lit ("Patient Flow Funnel"), lit ("A1"), J.str (lit ("Stage"))),
         (lit ("Patient Flow Funnel"), lit ("B1"), J.str (lit ("Percentage"))),
         (lit ("Patient Flow Funnel"), lit ("C1"), J.str (lit ("Description")))]
      let stagesV ← dictGetItem f (lit ("funnel_stages"))
      let stages ←
        match stagesV with
        | J.arr l => Except.ok l
        | _ => Except.error (.typeError (lit ("funnel stages not iterable")))
      let mut i := 2
      for st in stages do
        let sc ← writeCell (← jGetD st (lit ("stage")) (J.str []))
        let pc ← writeCell (← jGetD st (lit ("percentage")) (J.str []))
        let dc ← writeCell (← jGetD st (lit ("description")) (J.str []))
        cells := cells ++
          [(lit ("Patient Flow Funnel"), lit ("A") ++ natStr i, sc),
           (lit ("Patient Flow Funnel"), lit ("B") ++ natStr i, pc),
           (lit ("Patient Flow Funnel"), lit ("C") ++ natStr i, dc)]
        i := i + 1
    else pure ()
  | none => pure ()
  let sm := dictGetD analysis (lit ("scenario_models")) J.null
  if jTruthy sm then
    for yc in [(lit ("B"), lit ("2024")), (lit ("C"), lit ("2025")), (lit ("D"), lit ("2026")),
               (lit ("E"), lit ("2027")), (lit ("F"), lit ("2028")), (lit ("G"), lit ("2029"))] do
      cells := cells ++ [(lit ("Scenario Models"), yc.1 ++ lit ("1"), J.str yc.2)]
    let entries ←
      match sm with
      | J.obj fs => Except.ok fs
      | _ => Except.error (.attributeError (lit ("object has no attribute items")))
    let mut r := 2
    for kv in entries do
      cells := cells ++ [(lit ("Scenario Models"), lit ("A") ++ natStr r, J.str (pyTitle kv.1))]
      let hasProj ←
        match kv.2 with
        | J.obj fs => Except.ok (fs.any (fun p => p.1 == lit ("projections")))
        | J.str s => Except.ok (occurs (lit ("projections")) s)
        | J.arr l =>
          Except.ok (l.any (fun e => match e with | J.str s => s == lit ("projections") | _ => false))
        | _ => Except.error (.typeError (lit ("argument of type is not iterable")))
      if hasProj then
        let pv ← jGetItem kv.2 (lit ("projections"))
        let projs ←
          match pv with
          | J.arr l => Except.ok (l.take 6)
          | _ => Except.error (.typeError (lit ("unsubscriptable projections value")))
        let mut ci := 0
        for p in projs do
          let pc ← writeCell p
          cells := cells ++ [(lit ("Scenario Models"), colLetter ci ++ natStr r, pc)]
          ci := ci + 1
      else pure ()
      r := r + 1
  return cells

/-- `generate_excel_export`: the whole body under `try`; any internal
exception is logged and `None` is returned (never re-raised). -/
def generate_excel_export (analysis : Doc) (funnel : Option Doc) :
    Except Exc (Option (List (Str × Str × J))) :=
  match excelBody analysis funnel with
  | .ok cells => .ok (some cells)
  | .error _ => .ok none

/-! ## Supporting lemmas -/

theorem splitSepAux_of_not_occurs (c0 : Char) (ctl : Str) :
    ∀ (fuel : Nat) (l acc : Str), occurs (c0 :: ctl) l = false →
      splitSepAux c0 ctl fuel l acc = [acc.reverse ++ l] := by
  intro fuel
  induction fuel with
  | zero =>
    intro l acc _
    cases l <;> simp [splitSepAux]
  | succ fuel ih =>
    intro l acc h
    cases l with
    | nil => simp [splitSepAux]
    | cons x xs =>
      simp only [occurs, Bool.or_eq_false_iff] at h
      rw [splitSepAux, if_neg (by simp [h.1])]
      rw [ih xs (x :: acc) h.2]
      simp

theorem pySplitSep_eq_single (s sep : Str) (h : occurs sep s = false) (hne : sep ≠ []) :
    pySplitSep s sep = [s] := by
  match sep, hne with
  | c :: cs, _ =>
    simpa using splitSepAux_of_not_occurs c cs s.length s [] h

theorem jField_obj_cons_self (k : Str) (v : J) (rest : List (Str × J)) :
    jField (J.obj ((k, v) :: rest)) k = some v := by
  simp [jField, List.find?_cons_of_pos]

theorem secondaryStep_length (acc : List Competitor) (line : Str) :
    (secondaryStep acc line).length = acc.length ∨
      (secondaryStep acc line).length = acc.length + 1 := by
  unfold secondaryStep
  split <;> simp

theorem secondaryPass_length_le :
    ∀ (l : List Str) (acc : List Competitor), acc.length ≤ 4 →
      (secondaryPass l acc).length ≤ 5 := by
  intro l
  induction l with
  | nil => intro acc h; simp only [secondaryPass]; omega
  | cons x xs ih =>
    intro acc h
    have he := secondaryStep_length acc x
    simp only [secondaryPass]
    by_cases h5 : 5 ≤ (secondaryStep acc x).length
    · rw [if_pos h5]
      rcases he with he | he <;> omega
    · rw [if_neg h5]
      exact ih _ (by omega)

theorem secondaryPass_stops :
    ∀ (l1 : List Str) (acc : List Competitor) (l2 : List Str), acc.length ≤ 4 →
      5 ≤ (secondaryPass l1 acc).length →
      secondaryPass (l1 ++ l2) acc = secondaryPass l1 acc := by
  intro l1
  induction l1 with
  | nil =>
    intro acc l2 h h5
    simp only [secondaryPass] at h5
    exact absurd h5 (by omega)
  | cons x xs ih =>
    intro acc l2 h h5
    have he := secondaryStep_length acc x
    simp only [List.cons_append, secondaryPass] at h5 ⊢
    by_cases h5' : 5 ≤ (secondaryStep acc x).length
    · simp only [if_pos h5']
    · simp only [if_neg h5'] at h5 ⊢
      exact ih _ l2 (by omega) h5

/-! ## Claim theorems -/

/-- A `CompState` whose current section is `competitors`, as established by a
preceding MAJOR COMPETITORS header line. -/
def compStateCompetitors : CompState := { compInit with current_section := lit ("competitors") }

/-- Claim C6: for every raw text containing no `## ` section marker,
delimited-section parsing of the therapy-area analysis leaves all five
sections equal to the empty string (and, being total, never raises). -/
theorem no_markers_all_sections_empty (resp : Str)
    (h : occurs (lit ("## ")) resp = false) :
    parseTherapySections resp = emptySections := by
  unfold parseTherapySections
  rw [pySplitSep_eq_single resp (lit ("## ")) h (by decide)]
  rfl

/-- Witness for C6 at a concrete marker-free response. -/
theorem no_markers_all_sections_empty_witness :
    occurs (lit ("## ")) (lit ("plain prose about oncology")) = false ∧
    parseTherapySections (lit ("plain prose about oncology")) = emptySections :=
  ⟨by decide, no_markers_all_sections_empty (lit ("plain prose about oncology")) (by decide)⟩

/-- Claim C5: when scenario-model JSON decoding fails, the fallback for the
scenario list pessimistic/realistic/optimistic carries the base curve
scaled positionally by 0.6, 1.0 and 1.8, each product truncated to an
integer. -/
theorem scenario_fallback_projections (resp : Str) (hfail : parseJson resp = none) :
    ((jField (generate_scenario_models
          [lit ("pessimistic"), lit ("realistic"), lit ("optimistic")] (Except.ok resp))
        (lit ("pessimistic"))).bind (fun r => jField r (lit ("projections"))) =
      some (J.arr ([60, 150, 300, 450, 540, 480].map (fun n => J.num n 0)))) ∧
    ((jField (generate_scenario_models
          [lit ("pessimistic"), lit ("realistic"), lit ("optimistic")] (Except.ok resp))
        (lit ("realistic"))).bind (fun r => jField r (lit ("projections"))) =
      some (J.arr ([100, 250, 500, 750, 900, 800].map (fun n => J.num n 0)))) ∧
    ((jField (generate_scenario_models
          [lit ("pessimistic"), lit ("realistic"), lit ("optimistic")] (Except.ok resp))
        (lit ("optimistic"))).bind (fun r => jField r (lit ("projections"))) =
      some (J.arr ([180, 450, 900, 1350, 1620, 1440].map (fun n => J.num n 0)))) := by
  simp only [generate_scenario_models]
  rw [hfail]
  exact ⟨rfl, rfl, rfl⟩

/-- Witness for C5 at a concrete undecodable response. -/
theorem scenario_fallback_projections_witness :
    parseJson (lit ("no json here")) = none ∧
    ((jField (generate_scenario_models
          [lit ("pessimistic"), lit ("realistic"), lit ("optimistic")]
          (Except.ok (lit ("no json here"))))
        (lit ("pessimistic"))).bind (fun r => jField r (lit ("projections"))) =
      some (J.arr ([60, 150, 300, 450, 540, 480].map (fun n => J.num n 0)))) :=
  ⟨rfl, (scenario_fallback_projections (lit ("no json here")) rfl).1⟩

/-- Claim C3 (amended): given a model response, each parsing path is a total
function and a JSON-decode failure keeps the verbatim response in the
passthrough field; but when the model call itself raises, the risk,
regulatory and scenario paths return the empty record, which has no
passthrough field, and the competitive error record carries the error
message rather than a raw response. -/
theorem parsing_paths_passthrough :
    (∀ resp, parseJson resp = none →
        jField (generate_risk_assessment (Except.ok resp)) (lit ("full_assessment")) =
          some (J.str resp)) ∧
    (∀ resp, parseJson resp = none →
        jField (search_regulatory_intelligence (Except.ok resp)) (lit ("market_access")) =
          some (J.str resp)) ∧
    (∀ resp s ss, parseJson resp = none →
        ((jField (generate_scenario_models (s :: ss) (Except.ok resp)) s).bind
            (fun r => jField r (lit ("full_analysis")))) = some (J.str resp)) ∧
    (∀ resp, (generate_competitive_analysis (Except.ok resp)).full_analysis = resp) ∧
    (∀ e scenarios, generate_risk_assessment (Except.error e) = J.obj [] ∧
        search_regulatory_intelligence (Except.error e) = J.obj [] ∧
        generate_scenario_models scenarios (Except.error e) = J.obj []) := by
  refine ⟨?_, ?_, ?_, ?_, ?_⟩
  · intro resp h
    simp only [generate_risk_assessment]
    rw [h]
    rfl
  · intro resp h
    simp only [search_regulatory_intelligence]
    rw [h]
    rfl
  · intro resp s ss h
    simp only [generate_scenario_models]
    rw [h]
    simp only [scenarioFallbackFields]
    rw [jField_obj_cons_self]
    rfl
  · intro resp
    rfl
  · intro e scenarios
    exact ⟨rfl, rfl, rfl⟩

/-- Witness for the hypothesized conjuncts of the C3 theorem. -/
theorem parsing_paths_passthrough_witness :
    parseJson (lit ("not a json object")) = none ∧
    jField (generate_risk_assessment (Except.ok (lit ("not a json object"))))
        (lit ("full_assessment")) = some (J.str (lit ("not a json object"))) ∧
    jField (search_regulatory_intelligence (Except.ok (lit ("not a json object"))))
        (lit ("market_access")) = some (J.str (lit ("not a json object"))) ∧
    ((jField (generate_scenario_models [lit ("alpha")] (Except.ok (lit ("not a json object"))))
        (lit ("alpha"))).bind (fun r => jField r (lit ("full_analysis")))) =
      some (J.str (lit ("not a json object"))) :=
  ⟨rfl, parsing_paths_passthrough.1 (lit ("not a json object")) rfl,
   parsing_paths_passthrough.2.1 (lit ("not a json object")) rfl,
   parsing_paths_passthrough.2.2.1 (lit ("not a json object")) (lit ("alpha")) [] rfl⟩

/-- Claim C3 counterexample: when the model call raises, the risk path
returns the empty record, which lacks every passthrough field. -/
theorem llm_error_risk_record_lacks_passthrough :
    generate_risk_assessment (Except.error (Exc.other (lit ("connection failure")))) = J.obj [] ∧
    jField (generate_risk_assessment (Except.error (Exc.other (lit ("connection failure")))))
        (lit ("full_assessment")) = none ∧
    jField (generate_risk_assessment (Except.error (Exc.other (lit ("connection failure")))))
        (lit ("full_analysis")) = none ∧
    jField (generate_risk_assessment (Except.error (Exc.other (lit ("connection failure")))))
        (lit ("forecasting_notes")) = none :=
  ⟨rfl, rfl, rfl, rfl⟩

/-- Claim C4 (amended): a competitor line whose details contain no percent
sign gets the default market share 25, and every entry synthesized by the
secondary known-company pass carries market share 15 — not 5. -/
theorem default_market_shares :
    (∀ details, details.contains '%' = false → extractShare details = 25) ∧
    (∀ line, (mkKnownCompetitor line).market_share = 15) := by
  constructor
  · intro d h
    unfold extractShare
    rw [h]
    simp
  · intro line
    rfl

/-- Witness for the hypothesized conjunct of the C4 theorem. -/
theorem default_market_shares_witness :
    (lit ("strong oncology franchise")).contains '%' = false ∧
    extractShare (lit ("strong oncology franchise")) = 25 ∧
    (mkKnownCompetitor (lit ("Pfizer"))).market_share = 15 :=
  ⟨by decide, default_market_shares.1 (lit ("strong oncology franchise")) (by decide),
   default_market_shares.2 (lit ("Pfizer"))⟩

/-- Claim C4 counterexample: a percent-free competitor line yields share 25
and a secondary-pass entry yields 15; neither is the claimed default 5. -/
theorem no_percent_defaults_are_not_five :
    ((processLine compStateCompetitors
        (lit ("- Initech: strong oncology franchise"))).competitors.map
          (fun c => c.market_share)) = [25] ∧
    ((secondaryPass [lit ("Pfizer leads the market")] []).map
          (fun c => c.market_share)) = [15] ∧
    (25 : Nat) ≠ 5 ∧ (15 : Nat) ≠ 5 :=
  ⟨rfl, rfl, by decide, by decide⟩

/-- Claim C7 counterexample: the claimed line contains the word pipeline,
which matches the PIPELINE section keyword, so inside the competitors
section it is consumed as a section header and yields no competitor. -/
theorem acme_pipeline_line_is_section_header :
    (processLine compStateCompetitors
        (lit ("1. Acme Corp: 30% share, strong pipeline"))).competitors = [] ∧
    (processLine compStateCompetitors
        (lit ("1. Acme Corp: 30% share, strong pipeline"))).current_section =
      lit ("pipeline") :=
  ⟨rfl, rfl⟩

/-- Claim C7 (amended): for a competitor line free of section keywords, the
bullet and numeric prefixes are stripped from the name and the percentage
pattern sets the market share, as in `1. Acme Corp: 30% share, broad
portfolio`. -/
theorem acme_line_parses_name_and_share :
    ((processLine compStateCompetitors
        (lit ("1. Acme Corp: 30% share, broad portfolio"))).competitors.map
          (fun c => (c.name, c.market_share))) = [(lit ("Acme Corp"), 30)] :=
  rfl

/-- Claim C8: with zero competitors from line classification the secondary
pass yields at most 5 entries, it stops scanning once 5 are collected, and
the returned competitor list is capped at 7. -/
theorem secondary_pass_caps :
    (∀ resp, (linePassState resp).competitors = [] →
        ((generate_competitive_analysis (Except.ok resp)).competitors).length ≤ 5) ∧
    (∀ l1 l2, 5 ≤ (secondaryPass l1 []).length →
        secondaryPass (l1 ++ l2) [] = secondaryPass l1 []) ∧
    (∀ outcome, ((generate_competitive_analysis outcome).competitors).length ≤ 7) := by
  refine ⟨?_, ?_, ?_⟩
  · intro resp h
    have hs := secondaryPass_length_le (pySplitSep resp (lit ("\n"))) [] (by simp)
    simp only [generate_competitive_analysis, h, List.isEmpty_nil, if_true, List.length_take]
    omega
  · intro l1 l2 h5
    exact secondaryPass_stops l1 [] l2 (by simp) h5
  · intro outcome
    cases outcome with
    | error e => simp [generate_competitive_analysis, compErrorResult]
    | ok resp =>
      simp only [generate_competitive_analysis, List.length_take]
      exact Nat.min_le_left 7 _

/-- Witness for C8: a response whose line pass finds nothing and which
mentions six known companies; the secondary pass stops at five. -/
theorem secondary_pass_caps_witness :
    (linePassState (lit ("Pfizer alpha\nNovartis beta\nRoche gamma\nMerck delta\nAmgen epsilon\nGilead zeta"))).competitors = [] ∧
    ((generate_competitive_analysis (Except.ok
        (lit ("Pfizer alpha\nNovartis beta\nRoche gamma\nMerck delta\nAmgen epsilon\nGilead zeta")))).competitors).length ≤ 5 ∧
    5 ≤ (secondaryPass (pySplitSep
        (lit ("Pfizer alpha\nNovartis beta\nRoche gamma\nMerck delta\nAmgen epsilon\nGilead zeta"))
        (lit ("\n"))) []).length ∧
    secondaryPass (pySplitSep
        (lit ("Pfizer alpha\nNovartis beta\nRoche gamma\nMerck delta\nAmgen epsilon\nGilead zeta"))
        (lit ("\n")) ++ [lit ("Biogen eta")]) [] =
      secondaryPass (pySplitSep
        (lit ("Pfizer alpha\nNovartis beta\nRoche gamma\nMerck delta\nAmgen epsilon\nGilead zeta"))
        (lit ("\n"))) [] :=
  ⟨by decide,
   secondary_pass_caps.1
     (lit ("Pfizer alpha\nNovartis beta\nRoche gamma\nMerck delta\nAmgen epsilon\nGilead zeta"))
     (by decide),
   by decide,
   secondary_pass_caps.2.1 _ [lit ("Biogen eta")] (by decide)⟩

/-- Claim C9: on any stored analysis and optional funnel, both exporters
either return a payload or return the null signal; every internal exception
of the body is absorbed and neither exporter ever returns by raising. -/
theorem exporters_absorb_exceptions (analysis : Doc) (funnel : Option Doc) :
    ((∃ p, generate_pdf_report analysis funnel = Except.ok (some p)) ∨
      generate_pdf_report analysis funnel = Except.ok none) ∧
    ((∃ w, generate_excel_export analysis funnel = Except.ok (some w)) ∨
      generate_excel_export analysis funnel = Except.ok none) := by
  constructor
  · unfold generate_pdf_report
    cases pdfBody analysis with
    | ok s => exact Or.inl ⟨s, rfl⟩
    | error e => exact Or.inr rfl
  · unfold generate_excel_export
    cases excelBody analysis funnel with
    | ok s => exact Or.inl ⟨s, rfl⟩
    | error e => exact Or.inr rfl

/-- A store holding one analysis whose id differs from the requested one. -/
def dbC1 : Db :=
  { therapy_analyses := [[(lit ("id"), J.str (lit ("a-1")))]], patient_flow_funnels := [] }

/-- Claim C1: requesting funnel generation for an unknown analysis id hits
the explicit `HTTPException(404, Analysis not found)` — but the handler's own
`except Exception` catches it and re-raises a generic 500 wrapping its text,
so the response is a server error, not the claimed distinct 404; no funnel
record is written either way. -/
theorem funnel_generation_missing_analysis :
    generate_patient_flow_funnel dbC1 (lit ("missing-id")) (lit ("oncology"))
        (Except.ok (lit ("model response"))) (Except.ok (lit ("scenario response")))
        (lit ("funnel-1")) (lit ("2024-01-01T00:00:00")) =
      (Except.error
        (Exc.http 500 (lit ("Funnel generation failed: 404: Analysis not found"))), dbC1) :=
  rfl

/-- Claim C10: the funnel-stage list produced by the funnel JSON-decode
fallback contains the percentage string Variable, and the chart builder
converts every percentage with `float()` after stripping the percent sign,
so on that very list it raises a conversion error instead of returning a
chart description — whatever the raw response was. -/
theorem fallback_stages_break_funnel_chart (resp : Str) :
    (jGetD (fallbackFunnelResponse resp) (lit ("funnel_stages")) (J.arr [])).bind
        create_funnel_chart =
      Except.error (Exc.valueError (lit ("could not convert string to float: Variable"))) :=
  rfl

/-! ## Claim C2: the first-to-last-brace slice -/

theorem firstIdx_append_of_not_mem (c : Char) (pre l : Str) (h : c ∉ pre) :
    firstIdx c (pre ++ l) = (firstIdx c l).map (· + pre.length) := by
  induction pre with
  | nil =>
    simp only [List.nil_append, List.length_nil]
    cases firstIdx c l <;> simp
  | cons p ps ih =>
    simp only [List.mem_cons, not_or] at h
    have hne : ¬(p = c) := fun hh => h.1 hh.symm
    simp only [List.cons_append, firstIdx, if_neg hne, List.append_eq]
    rw [ih h.2]
    cases firstIdx c l with
    | none => simp
    | some v =>
      simp only [Option.map_some', Option.some.injEq, List.length_cons]
      omega

theorem pySlice_middle (a b c : List Char) :
    pySlice (a ++ b ++ c) (a.length : Int) ((a.length : Int) + b.length) = b := by
  unfold pySlice pySliceIdx
  rw [if_neg (by omega), if_neg (by omega)]
  have h2 : ((a.length : Int)).toNat = a.length := by omega
  have h3 : ((a.length : Int) + b.length).toNat = a.length + b.length := by omega
  rw [h2, h3]
  have h4 : min (a.length + b.length) (a ++ b ++ c).length = a.length + b.length := by
    simp only [List.length_append]
    omega
  have h5 : min a.length (a ++ b ++ c).length = a.length := by
    simp only [List.length_append]
    omega
  rw [h4, h5]
  have h6 : a.length + b.length = (a ++ b).length := by simp
  rw [h6, List.take_left]
  exact List.drop_left a b

/-- Claim C2 (amended): when the substring from the first opening brace to the
last closing brace is exactly the valid JSON object — in particular when a
valid object is surrounded by prose holding no further opening brace before
it and no further closing brace after it — the embedded-JSON parsing step of
funnel generation extracts and strictly decodes exactly that object. -/
theorem embedded_json_extracts_surrounded_object (pre jstr suf : Str) (j : J)
    (hpre : '{' ∉ pre) (hsuf : '}' ∉ suf)
    (hhead : jstr.head? = some '{') (hlast : jstr.getLast? = some '}')
    (hparse : parseJson jstr = some j) :
    extractEmbeddedJson (pre ++ jstr ++ suf) = some j := by
  obtain ⟨t, rfl⟩ : ∃ t, jstr = '{' :: t := by
    cases jstr with
    | nil => simp at hhead
    | cons a t =>
      refine ⟨t, ?_⟩
      simp only [List.head?_cons, Option.some.injEq] at hhead
      rw [hhead]
  have hfi : firstIdx '{' (pre ++ '{' :: t ++ suf) = some pre.length := by
    rw [List.append_assoc, firstIdx_append_of_not_mem _ _ _ hpre]
    simp [firstIdx]
  have hfj : pyFind (pre ++ '{' :: t ++ suf) '{' = (pre.length : Int) := by
    simp only [pyFind, hfi]
  have hrev : (pre ++ '{' :: t ++ suf).reverse =
      suf.reverse ++ (('{' :: t).reverse ++ pre.reverse) := by
    simp [List.reverse_append, List.append_assoc]
  have h1 : ('{' :: t).reverse.head? = some '}' := by
    rw [List.head?_reverse]
    exact hlast
  obtain ⟨t2, ht2⟩ : ∃ t2, ('{' :: t).reverse = '}' :: t2 := by
    cases hrv : ('{' :: t).reverse with
    | nil => rw [hrv] at h1; simp at h1
    | cons b tb =>
      rw [hrv] at h1
      simp only [List.head?_cons, Option.some.injEq] at h1
      exact ⟨tb, by rw [h1]⟩
  have hsufrev : '}' ∉ suf.reverse := by simpa using hsuf
  have hfir : firstIdx '}' ((pre ++ '{' :: t ++ suf).reverse) = some suf.length := by
    rw [hrev, firstIdx_append_of_not_mem _ _ _ hsufrev, ht2]
    simp [firstIdx]
  have hrf : pyRfind (pre ++ '{' :: t ++ suf) '}' + 1 =
      (pre.length : Int) + (('{' :: t).length : Int) := by
    simp only [pyRfind, hfir, List.length_append, List.length_cons]
    omega
  show parseJson (pySlice (pre ++ '{' :: t ++ suf)
      (pyFind (pre ++ '{' :: t ++ suf) '{') (pyRfind (pre ++ '{' :: t ++ suf) '}' + 1)) = some j
  rw [hfj, hrf, pySlice_middle pre ('{' :: t) suf]
  exact hparse

/-- Witness for C2 at a concrete prose-wrapped object. -/
theorem embedded_json_extracts_surrounded_object_witness :
    ('{' ∉ lit ("Here is the result: ")) ∧ ('}' ∉ lit (" -- hope this helps")) ∧
    (lit ("\x7b\x22a\x22: 1\x7d")).head? = some '{' ∧
    (lit ("\x7b\x22a\x22: 1\x7d")).getLast? = some '}' ∧
    parseJson (lit ("\x7b\x22a\x22: 1\x7d")) = some (J.obj [(lit ("a"), J.num 1 0)]) ∧
    extractEmbeddedJson (lit ("Here is the result: ") ++ lit ("\x7b\x22a\x22: 1\x7d") ++
        lit (" -- hope this helps")) = some (J.obj [(lit ("a"), J.num 1 0)]) :=
  ⟨by decide, by decide, by decide, by decide, rfl,
   embedded_json_extracts_surrounded_object (lit ("Here is the result: "))
     (lit ("\x7b\x22a\x22: 1\x7d")) (lit (" -- hope this helps"))
     (J.obj [(lit ("a"), J.num 1 0)]) (by decide) (by decide) (by decide) (by decide) rfl⟩

/-- Claim C2 counterexample: this text contains the valid object as a
substring, yet the slice from the first opening brace also spans the spurious
leading braces, fails strict decoding, and extraction yields nothing. -/
theorem embedded_json_misses_contained_object :
    occurs (lit ("\x7b\x22a\x22: 1\x7d")) (lit ("\x7boops\x7d \x7b\x22a\x22: 1\x7d")) = true ∧
    parseJson (lit ("\x7b\x22a\x22: 1\x7d")) = some (J.obj [(lit ("a"), J.num 1 0)]) ∧
    extractEmbeddedJson (lit ("\x7boops\x7d \x7b\x22a\x22: 1\x7d")) = none :=
  ⟨by decide, rfl, rfl⟩
